import Mathlib

/-!
Shallow embedding of `src/simple_vae_demo.py`: the CVAE training driver.

Scalars (losses, learning rates) are modelled as rationals `ℚ`; model
parameters (`state_dict`) as a list of rationals; the model forward pass
and the loss function are abstracted as functions `Params → Batch → ℚ`
(the script treats the model and `loss_bce_kld` as black boxes).  The
`EarlyStopping` class lives in `nn_helpers.losses`, which is not part of
this repository's sources; it is modelled from the spec (section 4.2).
-/

namespace VaeDemo

/-- Model parameters: the flat list of values of the model's tensors
(`model.state_dict()` in the script). -/
abbrev Params := List ℚ

/-- One batch yielded by a `DataLoader`: its number of examples and a
class-label payload.  (The actual pixel data is irrelevant to the control
flow; the per-batch loss is supplied by an abstract function.) -/
structure Batch where
  size : ℕ
  label : ℕ
deriving DecidableEq

/-- Runtime errors of the script that the claims mention: the Python
`ZeroDivisionError` raised by `loss / batch_sz` when `loss` is the
integer `0` (no batches ran) and `batch_sz = 0`. -/
inductive VaeErr
  | divByZero
deriving DecidableEq

/-- The observable side-effecting calls `train_validate` makes, in
program order: `opt.zero_grad()`, the conditional model call
`model(x, y)`, the unconditional model call `model(x)`,
`loss.backward()` and `opt.step()`. -/
inductive TVEvent
  | zeroGrad
  | forwardCond
  | forwardUncond
  | backward
  | optStep
deriving DecidableEq

/-- Mutable state threaded through the loop body of `train_validate`:
the model parameters, the Python variable `loss`, and the trace of
side-effecting calls made so far. -/
structure TVState where
  params : Params
  loss : ℚ
  events : List TVEvent
deriving DecidableEq

/-- `len(loader_data.dataset)` — the `DataLoader` partitions the dataset
into its batches, so the dataset size is the sum of the batch sizes
(the script binds it to the local `batch_sz`). -/
def datasetSize (loader : List Batch) : ℕ :=
  (loader.map Batch.size).sum

/-- One iteration of the `for batch_idx, (x, y) in enumerate(loader_data)`
loop of `train_validate` (source lines 210-229):
`opt.zero_grad()` when training, then the branch on `conditional`
choosing `model(x, y)` or `model(x)`, then
`loss = loss_fn(x, x_hat, mu, log_var)` (overwriting the running value),
then `loss += loss.item()` (adding the batch loss's scalar back onto
itself), and finally `loss.backward(); opt.step()` when training.
`fwdC`/`fwdU` give the scalar loss of the conditional/unconditional
branch for the current parameters; `optStepF` is the parameter update
performed by `opt.step()`. -/
def processBatch (fwdC fwdU : Params → Batch → ℚ) (optStepF : Params → Params)
    (conditional train : Bool) (s : TVState) (b : Batch) : TVState :=
  let s1 : TVState :=
    if train then { s with events := s.events ++ [TVEvent.zeroGrad] } else s
  let fwdEv : TVEvent := if conditional then TVEvent.forwardCond else TVEvent.forwardUncond
  let batchLoss : ℚ := if conditional then fwdC s1.params b else fwdU s1.params b
  let s2 : TVState := { s1 with events := s1.events ++ [fwdEv] }
  let s3 : TVState := { s2 with loss := batchLoss + batchLoss }
  if train then
    { params := optStepF s3.params
      loss := s3.loss
      events := s3.events ++ [TVEvent.backward, TVEvent.optStep] }
  else s3

/-- The batch loop of `train_validate`, started from `loss = 0` and an
empty event trace. -/
def tvFold (fwdC fwdU : Params → Batch → ℚ) (optStepF : Params → Params)
    (conditional train : Bool) (params : Params) (loader : List Batch) : TVState :=
  loader.foldl (processBatch fwdC fwdU optStepF conditional train)
    { params := params, loss := 0, events := [] }

/-- Result of a full `train_validate` call: the parameters after the
pass, the trace of side-effecting calls, and the returned value
`loss / batch_sz` — or the raised `ZeroDivisionError` when
`batch_sz = 0` (an empty data source runs no batches, so `loss` is the
integer `0` and Python raises on `0 / 0`). -/
structure TVRun where
  finalParams : Params
  events : List TVEvent
  result : Except VaeErr ℚ

/-- `train_validate(model, loader_data, loss_fn, scheduler, conditional, train)`
(source lines 206-231). -/
def train_validate (fwdC fwdU : Params → Batch → ℚ) (optStepF : Params → Params)
    (loader : List Batch) (conditional train : Bool) (params : Params) : TVRun :=
  let s := tvFold fwdC fwdU optStepF conditional train params loader
  let bsz := datasetSize loader
  { finalParams := s.params
    events := s.events
    result :=
      if bsz = 0 then Except.error VaeErr.divByZero
      else Except.ok (s.loss / (bsz : ℚ)) }

/-- The per-batch block of side-effecting calls, as a function of the
`conditional` and `train` flags. -/
def perBatchEvents (conditional train : Bool) : List TVEvent :=
  (if train then [TVEvent.zeroGrad] else [])
    ++ [if conditional then TVEvent.forwardCond else TVEvent.forwardUncond]
    ++ (if train then [TVEvent.backward, TVEvent.optStep] else [])

/-- The model parameters in effect when the final batch of a pass is
processed: the state reached after the loop body has run on all the
preceding batches (in an evaluation pass these are just the initial
parameters; in a training pass, the parameters after one `opt.step()`
per preceding batch). -/
def paramsBeforeLast (f g : Params → Batch → ℚ) (o : Params → Params)
    (c t : Bool) (p : Params) (l : List Batch) : Params :=
  (List.foldl (processBatch f g o c t) { params := p, loss := 0, events := [] } l).params

/-- Modelled from the spec: the state of `EarlyStopping` from
`nn_helpers.losses` (not present in this repository's sources), per spec
section 4.2 — `bestValue` (initially plus-infinity when minimizing,
modelled as `none`) and `badEpochsCount` (initially 0). -/
structure ESState where
  bestValue : Option ℚ
  badEpochs : ℕ
deriving DecidableEq

/-- Initial `EarlyStopping` state: best value plus-infinity, no bad
epochs. -/
def esInit : ESState := { bestValue := none, badEpochs := 0 }

/-- Modelled from the spec: in minimize mode, `currentValue` improves on
`bestValue` by more than `minDelta`; the initial best of plus-infinity
is improved by every value. -/
def esImproves (minDelta : ℚ) (best : Option ℚ) (v : ℚ) : Bool :=
  match best with
  | none => true
  | some b => decide (v < b - minDelta)

/-- Modelled from the spec: `EarlyStopping.step(currentValue)` (spec
section 4.2) — on improvement set `bestValue = currentValue` and reset
`badEpochsCount = 0`, otherwise increment `badEpochsCount`; return stop
= true when `badEpochsCount >= patienceLimit`. -/
def esStep (minDelta : ℚ) (patience : ℕ) (s : ESState) (v : ℚ) : ESState × Bool :=
  if esImproves minDelta s.bestValue v then
    ({ bestValue := some v, badEpochs := 0 }, decide (patience ≤ 0))
  else
    ({ bestValue := s.bestValue, badEpochs := s.badEpochs + 1 },
      decide (patience ≤ s.badEpochs + 1))

/-- `EarlyStopping('min', 0.0005, 5)` (source line 253): the minimum
improvement delta. -/
def minDelta : ℚ := 1 / 2000

/-- `EarlyStopping('min', 0.0005, 5)` (source line 253): the patience
limit. -/
def patienceLimit : ℕ := 5

/-- `v_loss < best_loss` where `best_loss` starts as `np.inf`
(modelled as `none`): every finite loss is below infinity. -/
def ltBest (v : ℚ) (best : Option ℚ) : Bool :=
  match best with
  | none => true
  | some b => decide (v < b)

/-- The checkpoint decision of the main loop, source line 266:
`if v_loss < best_loss or stop`. -/
def shouldCheckpoint (vLoss : ℚ) (best : Option ℚ) (stop : Bool) : Bool :=
  ltBest vLoss best || stop

/-- The `best_loss = v_loss` assignment inside the checkpoint branch
(source line 267): taken exactly when the checkpoint condition holds. -/
def updateBest (vLoss : ℚ) (best : Option ℚ) (stop : Bool) : Option ℚ :=
  if shouldCheckpoint vLoss best stop then some vLoss else best

/-- The dictionary written by the checkpoint branch (source lines
269-274): `{'epoch': epoch + 1, 'state_dict': model.state_dict(),
'val_loss': v_loss}`. -/
structure CheckpointRecord where
  epoch : ℕ
  stateDict : Params
  valLoss : ℚ
deriving DecidableEq

/-- Builds the state dictionary passed to `save_checkpoint` at source
lines 269-273; note the stored epoch index is `epoch + 1`. -/
def mkCheckpointState (epoch : ℕ) (p : Params) (v : ℚ) : CheckpointRecord :=
  { epoch := epoch + 1, stateDict := p, valLoss := v }

/-- The checkpoint filename key: `'models/CVAE_{:04.4f}.pt'.format(v_loss)`
renders the loss with four decimal digits, i.e. the name is determined
by the loss rounded to a multiple of 1/10000. -/
def checkpointFilename (v : ℚ) : ℤ :=
  round (v * 10000)

/-- Durable checkpoint storage: an association of filenames to saved
states, most recent first (`torch.save` overwrites, last write wins). -/
abbrev Store := List (ℤ × CheckpointRecord)

/-- `save_checkpoint(state, filename)` = `torch.save(state, filename)`
(source lines 136-137). -/
def save_checkpoint (store : Store) (state : CheckpointRecord) (filename : ℤ) : Store :=
  (filename, state) :: store

/-- `torch.load(filename)`: the most recently saved state under that
filename, if any. -/
def loadCheckpoint (store : Store) (filename : ℤ) : Option CheckpointRecord :=
  (store.find? (fun kv => kv.1 == filename)).map Prod.snd

/-- Command-line arguments of the script (source lines 27-67) with the
declared defaults.  `--conditional` is declared with
`action='store_true', default=True`. -/
structure Args where
  conditional : Bool
  optimizerName : String
  batchSize : ℕ
  epochs : ℕ
  lr : ℚ
  visdomUrl : Option String
  visdomPort : ℕ
  logInterval : ℕ
  noCuda : Bool
  ngpu : ℕ
  seed : Option ℤ
deriving DecidableEq

/-- The parser defaults (source lines 34-64): in particular
`--lr` defaults to `1e-4` and `--conditional` to `True`. -/
def defaultArgs : Args :=
  { conditional := true
    optimizerName := "adam"
    batchSize := 128
    epochs := 25
    lr := 1 / 10000
    visdomUrl := none
    visdomPort := 8097
    logInterval := 1
    noCuda := false
    ngpu := 1
    seed := none }

/-- Argparse semantics of `--conditional` (source lines 34-35):
`action='store_true'` stores `True` when the flag is present, and the
declared default `True` otherwise. -/
def parseConditionalFlag (argv : List String) : Bool :=
  if argv.contains "--conditional" then true else defaultArgs.conditional

/-- Adam's hyper-parameters as constructed by the script. -/
structure AdamConfig where
  lr : ℚ
  beta1 : ℚ
  beta2 : ℚ
deriving DecidableEq

/-- `get_optimizer(model)` (source lines 159-165): hard-codes
`lr = 1e-3`, `betas = (0.9, 0.999)`; nothing from the command line is
consulted. -/
def get_optimizer (_model : Params) : AdamConfig :=
  { lr := 1 / 1000, beta1 := 9 / 10, beta2 := 999 / 1000 }

/-- `opt = get_optimizer(model)` (source line 251): the optimizer the
run uses, as a function of the parsed arguments and the model — the
arguments are not consulted. -/
def optimizerForArgs (_args : Args) (model : Params) : AdamConfig :=
  get_optimizer model

/-- `conditional = True` (source line 256): the main loop hard-codes the
conditional path regardless of the parsed arguments. -/
def mainConditional : Bool := true

/-- Abstract configuration of one run: the black-box per-batch loss of
each model branch, the parameter update of `opt.step()`, the (shuffled,
hence epoch-indexed) training loader and the validation loader. -/
structure RunCfg where
  fwdC : Params → Batch → ℚ
  fwdU : Params → Batch → ℚ
  optStepF : Params → Params
  loaderTrain : ℕ → List Batch
  loaderVal : List Batch

/-- What the main loop records for one executed epoch: the epoch index,
the two pass results, the early-stopping signal, `best_loss` before and
after the checkpoint decision, the decision itself, and the checkpoint
record written (if any). -/
structure EpochOut where
  epoch : ℕ
  tLoss : ℚ
  vLoss : ℚ
  stop : Bool
  bestBefore : Option ℚ
  checkpointed : Bool
  bestAfter : Option ℚ
  record : Option CheckpointRecord
deriving DecidableEq

/-- The two passes of `execute_graph` (source lines 168-177): a training
pass over the (per-epoch) training loader followed by a validation pass
over the validation loader, both with the hard-coded `conditional`
flag; the scheduler step does not alter these values. -/
def epochPasses (cfg : RunCfg) (epoch : ℕ) (params : Params) : TVRun × TVRun :=
  let tr := train_validate cfg.fwdC cfg.fwdU cfg.optStepF (cfg.loaderTrain epoch)
    mainConditional true params
  let vr := train_validate cfg.fwdC cfg.fwdU cfg.optStepF cfg.loaderVal
    mainConditional false tr.finalParams
  (tr, vr)

/-- The main training-and-validation loop (source lines 260-277),
generic in the early-stopping collaborator `stepES` (the loop only
consumes its boolean signal).  Per epoch: run both passes, feed the
validation loss to early stopping, take the checkpoint decision
`if v_loss < best_loss or stop`, and on `stop` break immediately after
that decision.  A raised `ZeroDivisionError` propagates and aborts the
loop. -/
def runFrom {σ : Type} (stepES : σ → ℚ → σ × Bool) (cfg : RunCfg)
    (es : σ) (best : Option ℚ) (params : Params) (epoch : ℕ) (fuel : ℕ) :
    List EpochOut × Option VaeErr :=
  match fuel with
  | 0 => ([], none)
  | fuel' + 1 =>
    let pr := epochPasses cfg epoch params
    match pr.1.result, pr.2.result with
    | Except.ok tL, Except.ok vL =>
      let esOut := stepES es vL
      let stop := esOut.2
      let ck := shouldCheckpoint vL best stop
      let best' := updateBest vL best stop
      let out : EpochOut :=
        { epoch := epoch
          tLoss := tL
          vLoss := vL
          stop := stop
          bestBefore := best
          checkpointed := ck
          bestAfter := best'
          record := if ck then some (mkCheckpointState epoch pr.2.finalParams vL) else none }
      if stop then ([out], none)
      else
        let rest := runFrom stepES cfg esOut.1 best' pr.2.finalParams (epoch + 1) fuel'
        (out :: rest.1, rest.2)
    | Except.error e, _ => ([], some e)
    | Except.ok _, Except.error e => ([], some e)

/-- The script's main loop `for epoch in range(1, num_epochs + 1)`
(source line 260) with the concrete `EarlyStopping('min', 0.0005, 5)`
collaborator, starting from `best_loss = np.inf` and the initial model
parameters. -/
def mainRun (cfg : RunCfg) (initParams : Params) (numEpochs : ℕ) :
    List EpochOut × Option VaeErr :=
  runFrom (esStep minDelta patienceLimit) cfg esInit none initParams 1 numEpochs

/-- A constant per-batch loss of 2.0, as in the spec's 100-examples
example. -/
def constLoss2 : Params → Batch → ℚ := fun _ _ => 2

/-- A batch of ten examples. -/
def b10 : Batch := { size := 10, label := 0 }

/-- A data source of 100 examples in 10 batches of 10. -/
def loader10 : List Batch := List.replicate 10 b10

/-- A data source of 20 examples in 2 batches of 10. -/
def loader2x10 : List Batch := [{ size := 10, label := 0 }, { size := 10, label := 0 }]

/-- A concrete run configuration: one training batch per epoch, one
validation batch of one example, `opt.step()` adds 1 to every
parameter, and the conditional loss depends only on the (epoch-counting)
first parameter, yielding the validation losses 1, 1/2, 2, 2, 2, 2, 2
over epochs 1-7. -/
def cfg0 : RunCfg :=
  { fwdC := fun p _ =>
      if p.headD 0 = 1 then 1 / 2 else if p.headD 0 = 2 then 1 / 4 else 1
    fwdU := fun _ _ => 0
    optStepF := fun p => p.map (fun q => q + 1)
    loaderTrain := fun _ => [{ size := 1, label := 0 }]
    loaderVal := [{ size := 1, label := 0 }] }

/-- Initial parameters for the concrete run `cfg0`. -/
def p0 : Params := [0]

/-- The first epoch's record in the concrete run of `cfg0`: validation
loss 1 (below the initial infinite best), checkpoint taken. -/
def mainOut0 : EpochOut :=
  { epoch := 1
    tLoss := 2
    vLoss := 1
    stop := false
    bestBefore := none
    checkpointed := true
    bestAfter := some 1
    record := some { epoch := 2, stateDict := [1], valLoss := 1 } }

/-- The second epoch's record in the concrete run of `cfg0`: validation
loss 1/2 improves on the best, checkpoint taken, `best_loss = 1/2`. -/
def mainOut1 : EpochOut :=
  { epoch := 2
    tLoss := 1
    vLoss := 1 / 2
    stop := false
    bestBefore := some 1
    checkpointed := true
    bestAfter := some (1 / 2)
    record := some { epoch := 3, stateDict := [2], valLoss := 1 / 2 } }

/-- The third epoch's record in the concrete run of `cfg0`: validation
loss 2 is no improvement, no checkpoint. -/
def mainOut2 : EpochOut :=
  { epoch := 3
    tLoss := 1 / 2
    vLoss := 2
    stop := false
    bestBefore := some (1 / 2)
    checkpointed := false
    bestAfter := some (1 / 2)
    record := none }

/-- Epochs four to six of the concrete run of `cfg0`: validation loss
stuck at 2, no checkpoint, the patience counter climbing. -/
def mainOutMid (e : ℕ) : EpochOut :=
  { epoch := e
    tLoss := 2
    vLoss := 2
    stop := false
    bestBefore := some (1 / 2)
    checkpointed := false
    bestAfter := some (1 / 2)
    record := none }

/-- The seventh epoch's record in the concrete run of `cfg0`: the
early-stopping signal fires with validation loss 2 while `best_loss`
is 1/2, the stop-triggered checkpoint is still written, and `best_loss`
is overwritten with the worse value 2. -/
def mainOut6 : EpochOut :=
  { epoch := 7
    tLoss := 2
    vLoss := 2
    stop := true
    bestBefore := some (1 / 2)
    checkpointed := true
    bestAfter := some 2
    record := some { epoch := 8, stateDict := [7], valLoss := 2 } }

/-- The full trace of the concrete run of `cfg0`: seven epochs, the
seventh stopped by early stopping. -/
def mainTrace : List EpochOut :=
  [mainOut0, mainOut1, mainOut2, mainOutMid 4, mainOutMid 5, mainOutMid 6, mainOut6]

/-!  Theorems.  -/

theorem processBatch_params (f g : Params → Batch → ℚ) (o : Params → Params)
    (c t : Bool) (s : TVState) (b : Batch) :
    (processBatch f g o c t s b).params = if t then o s.params else s.params := by
  cases t <;> cases c <;> simp [processBatch]

theorem processBatch_events (f g : Params → Batch → ℚ) (o : Params → Params)
    (c t : Bool) (s : TVState) (b : Batch) :
    (processBatch f g o c t s b).events = s.events ++ perBatchEvents c t := by
  cases t <;> cases c <;> simp [processBatch, perBatchEvents]

theorem processBatch_loss (f g : Params → Batch → ℚ) (o : Params → Params)
    (c t : Bool) (s : TVState) (b : Batch) :
    (processBatch f g o c t s b).loss =
      (if c then f s.params b else g s.params b) + (if c then f s.params b else g s.params b) := by
  cases t <;> cases c <;> simp [processBatch]

theorem foldl_processBatch_params_eval (f g : Params → Batch → ℚ) (o : Params → Params)
    (c : Bool) :
    ∀ (loader : List Batch) (s : TVState),
      (List.foldl (processBatch f g o c false) s loader).params = s.params := by
  intro loader
  induction loader with
  | nil => intro s; rfl
  | cons b bs ih =>
    intro s
    rw [List.foldl_cons, ih, processBatch_params]
    simp

theorem foldl_processBatch_events (f g : Params → Batch → ℚ) (o : Params → Params)
    (c t : Bool) :
    ∀ (loader : List Batch) (s : TVState),
      (List.foldl (processBatch f g o c t) s loader).events =
        s.events ++ loader.flatMap (fun _ => perBatchEvents c t) := by
  intro loader
  induction loader with
  | nil => intro s; simp
  | cons b bs ih =>
    intro s
    rw [List.foldl_cons, ih, processBatch_events]
    simp

theorem foldl_processBatch_loss_last (f g : Params → Batch → ℚ) (o : Params → Params)
    (c t : Bool) (l : List Batch) (b : Batch) (s : TVState) :
    (List.foldl (processBatch f g o c t) s (l ++ [b])).loss =
      (if c then f (List.foldl (processBatch f g o c t) s l).params b
            else g (List.foldl (processBatch f g o c t) s l).params b) +
      (if c then f (List.foldl (processBatch f g o c t) s l).params b
            else g (List.foldl (processBatch f g o c t) s l).params b) := by
  rw [List.foldl_append, List.foldl_cons, List.foldl_nil, processBatch_loss]

theorem runFrom_out_fields {σ : Type} (stepES : σ → ℚ → σ × Bool) (cfg : RunCfg) :
    ∀ (fuel : ℕ) (es : σ) (best : Option ℚ) (params : Params) (epoch : ℕ)
      (out : EpochOut), out ∈ (runFrom stepES cfg es best params epoch fuel).1 →
      out.checkpointed = shouldCheckpoint out.vLoss out.bestBefore out.stop ∧
      out.record.isSome = out.checkpointed ∧
      out.bestAfter = updateBest out.vLoss out.bestBefore out.stop := by
  intro fuel
  induction fuel with
  | zero => intro es best params epoch out hmem; simp [runFrom] at hmem
  | succ n ih =>
    intro es best params epoch out hmem
    rw [runFrom] at hmem
    rcases htr : (epochPasses cfg epoch params).1.result with e | tL <;>
      rcases hvr : (epochPasses cfg epoch params).2.result with e' | vL <;>
        simp only [htr, hvr] at hmem
    · simp at hmem
    · simp at hmem
    · simp at hmem
    · by_cases hstop : (stepES es vL).2 = true
      · simp only [hstop, if_true, List.mem_singleton] at hmem
        subst hmem
        refine ⟨rfl, ?_, rfl⟩
        by_cases hck : shouldCheckpoint vL best true = true <;> simp [hck]
      · simp only [Bool.not_eq_true] at hstop
        simp only [hstop, Bool.false_eq_true, if_false, List.mem_cons] at hmem
        rcases hmem with hout | hrest
        · subst hout
          refine ⟨rfl, ?_, rfl⟩
          by_cases hck : shouldCheckpoint vL best false = true <;> simp [hck]
        · exact ih _ _ _ _ out hrest

theorem runFrom_stop_last {σ : Type} (stepES : σ → ℚ → σ × Bool) (cfg : RunCfg) :
    ∀ (fuel : ℕ) (es : σ) (best : Option ℚ) (params : Params) (epoch i : ℕ)
      (out : EpochOut),
      (runFrom stepES cfg es best params epoch fuel).1.get? i = some out →
      out.stop = true →
      (runFrom stepES cfg es best params epoch fuel).1.length = i + 1 := by
  intro fuel
  induction fuel with
  | zero => intro es best params epoch i out hget _; simp [runFrom] at hget
  | succ n ih =>
    intro es best params epoch i out hget hstop
    rw [runFrom] at hget ⊢
    rcases htr : (epochPasses cfg epoch params).1.result with e | tL <;>
      rcases hvr : (epochPasses cfg epoch params).2.result with e' | vL <;>
        simp only [htr, hvr] at hget ⊢
    · simp at hget
    · simp at hget
    · simp at hget
    · by_cases hs : (stepES es vL).2 = true
      · simp only [hs, if_true] at hget ⊢
        cases i with
        | zero => rfl
        | succ j => simp at hget
      · simp only [Bool.not_eq_true] at hs
        simp only [hs, Bool.false_eq_true, if_false] at hget ⊢
        cases i with
        | zero =>
          simp only [List.get?_cons_zero, Option.some.injEq] at hget
          subst hget
          simp [hs] at hstop
        | succ j =>
          simp only [List.get?_cons_succ] at hget
          have := ih _ _ _ _ j out hget hstop
          simp [List.length_cons, this]

set_option maxRecDepth 8000 in
set_option maxHeartbeats 2000000 in
theorem mainTrace_eq : (mainRun cfg0 p0 25).1 = mainTrace := by
  norm_num [mainRun, mainTrace, runFrom, epochPasses, train_validate, tvFold,
    processBatch, datasetSize, cfg0, p0, esInit, esStep, esImproves, minDelta,
    patienceLimit, shouldCheckpoint, ltBest, updateBest, mkCheckpointState,
    mainConditional, mainOut0, mainOut1, mainOut2, mainOutMid, mainOut6]

/-- Claim C4: for an empty data source, `train_validate` fails with an
explicit, reported division-by-zero error (the failure is raised — in
Python, the integer division `0 / 0` raises `ZeroDivisionError` — not
silently coerced to NaN or another value). -/
theorem trainValidate_empty_raises_divByZero (f g : Params → Batch → ℚ)
    (o : Params → Params) (c t : Bool) (p : Params) :
    (train_validate f g o [] c t p).result = Except.error VaeErr.divByZero := rfl

/-- Claim C2: for every non-empty data source, `train_validate` returns
the accumulated loss variable divided by the total number of examples of
the data source (`len(loader_data.dataset)` = `datasetSize`), i.e. the
denominator is the dataset size, not the number of batches. -/
theorem trainValidate_mean_per_example (f g : Params → Batch → ℚ)
    (o : Params → Params) (loader : List Batch) (c t : Bool) (p : Params)
    (h : datasetSize loader ≠ 0) :
    (train_validate f g o loader c t p).result =
      Except.ok ((tvFold f g o c t p loader).loss / (datasetSize loader : ℚ)) := by
  simp [train_validate, h]

/-- Witness for claim C2: a data source of 20 examples in 2 batches —
the divisor is 20, the dataset size. -/
theorem trainValidate_mean_per_example_witness :
    datasetSize loader2x10 ≠ 0 ∧
    (train_validate constLoss2 constLoss2 id loader2x10 true false []).result =
      Except.ok ((tvFold constLoss2 constLoss2 id true false [] loader2x10).loss /
        (datasetSize loader2x10 : ℚ)) :=
  ⟨by decide, trainValidate_mean_per_example constLoss2 constLoss2 id loader2x10 true false []
    (by decide)⟩

/-- Counterexample for claim C3 as stated: on 100 examples in 10 batches
of 10 with constant per-batch loss 2.0, `train_validate` returns
1/25 = 0.04, which is neither 2.0/100 × 1 = 0.02 (one contributing
batch, the claim's value under the overwrite semantics) nor
2.0/100 × 10 = 0.2 (the running-sum semantics): the accumulation line
`loss += loss.item()` doubles the final batch's loss. -/
theorem trainValidate_accumulation_counterexample :
    (train_validate constLoss2 constLoss2 id loader10 true false []).result =
      Except.ok (1 / 25) ∧
    (1 / 25 : ℚ) ≠ 2 / 100 * 1 ∧
    (1 / 25 : ℚ) ≠ 2 / 100 * 10 := by
  refine ⟨?_, by norm_num, by norm_num⟩
  norm_num [train_validate, tvFold, processBatch, datasetSize, loader10, b10,
    constLoss2, List.replicate]

/-- Claim C3 as amended: the running loss variable is overwritten by the
current batch's loss before the accumulation line runs, so for every
multi-batch pass — train or evaluate — only the final batch's loss
contributes to the returned value — but it contributes twice, because
`loss += loss.item()` adds the batch loss's scalar back onto itself;
the returned value is `2 × (final batch's loss, at the parameters in
effect for that batch) / datasetSize`, independent of every earlier
batch's loss, and in an evaluation pass those parameters are the
initial ones. -/
theorem trainValidate_last_batch_only (f g : Params → Batch → ℚ)
    (o : Params → Params) (c t : Bool) (p : Params) (l : List Batch) (b : Batch)
    (h : datasetSize (l ++ [b]) ≠ 0) :
    (train_validate f g o (l ++ [b]) c t p).result =
      Except.ok ((2 * (if c then f (paramsBeforeLast f g o c t p l) b
                       else g (paramsBeforeLast f g o c t p l) b)) /
        (datasetSize (l ++ [b]) : ℚ)) ∧
    (t = false → paramsBeforeLast f g o c t p l = p) := by
  constructor
  · simp only [train_validate, tvFold, paramsBeforeLast, if_neg h]
    rw [foldl_processBatch_loss_last, two_mul]
  · intro ht
    subst ht
    exact foldl_processBatch_params_eval f g o c l _

/-- Witness for the amended claim C3: the spec's own example — 100
examples in 10 batches of constant loss 2.0 — run as a training pass,
returns 2 × 2.0 / 100 = 0.04. -/
theorem trainValidate_last_batch_only_witness :
    datasetSize (List.replicate 9 b10 ++ [b10]) ≠ 0 ∧
    ((train_validate constLoss2 constLoss2 id (List.replicate 9 b10 ++ [b10])
        true true []).result =
      Except.ok ((2 * (if true then
          constLoss2 (paramsBeforeLast constLoss2 constLoss2 id true true []
            (List.replicate 9 b10)) b10
        else
          constLoss2 (paramsBeforeLast constLoss2 constLoss2 id true true []
            (List.replicate 9 b10)) b10)) /
        (datasetSize (List.replicate 9 b10 ++ [b10]) : ℚ)) ∧
     (true = false → paramsBeforeLast constLoss2 constLoss2 id true true []
        (List.replicate 9 b10) = [])) :=
  ⟨by decide, trainValidate_last_batch_only constLoss2 constLoss2 id true true []
    (List.replicate 9 b10) b10 (by decide)⟩

/-- Claim C7: when `train` is true, `train_validate` clears the
accumulated gradients (`opt.zero_grad()`) before each batch's forward
pass and applies exactly one optimizer step per batch after the loss
gradient (`loss.backward(); opt.step()`); when `train` is false, no
optimizer call is made and no parameter mutation occurs — the model
parameters after a validation pass equal those before it. -/
theorem trainValidate_side_effects (f g : Params → Batch → ℚ)
    (o : Params → Params) (c : Bool) (loader : List Batch) (p : Params) :
    (train_validate f g o loader c false p).finalParams = p ∧
    TVEvent.optStep ∉ (train_validate f g o loader c false p).events ∧
    TVEvent.zeroGrad ∉ (train_validate f g o loader c false p).events ∧
    (train_validate f g o loader c false p).events =
      loader.flatMap (fun _ =>
        [if c then TVEvent.forwardCond else TVEvent.forwardUncond]) ∧
    (train_validate f g o loader c true p).events =
      loader.flatMap (fun _ =>
        [TVEvent.zeroGrad,
         if c then TVEvent.forwardCond else TVEvent.forwardUncond,
         TVEvent.backward, TVEvent.optStep]) := by
  have hev : ∀ t : Bool, (train_validate f g o loader c t p).events =
      loader.flatMap (fun _ => perBatchEvents c t) := by
    intro t
    show (tvFold f g o c t p loader).events = _
    rw [tvFold, foldl_processBatch_events]
    rfl
  have heval : (train_validate f g o loader c false p).events =
      loader.flatMap (fun _ =>
        [if c then TVEvent.forwardCond else TVEvent.forwardUncond]) := by
    rw [hev false]; simp [perBatchEvents]
  refine ⟨foldl_processBatch_params_eval f g o c loader _, ?_, ?_, heval, ?_⟩
  · rw [heval]; cases c <;> simp [List.mem_flatMap]
  · rw [heval]; cases c <;> simp [List.mem_flatMap]
  · rw [hev true]; simp [perBatchEvents]

/-- Claim C9: the conditional path is always active — `--conditional`
is declared with `action='store_true'` and default `True`, so parsing
can never make it false; the main loop additionally hard-codes
`conditional = True`; hence the unconditional branch of
`train_validate` (the `model(x)` call) is unreachable in every run. -/
theorem conditional_path_always_active :
    (∀ argv : List String, parseConditionalFlag argv = true) ∧
    mainConditional = true ∧
    (∀ (f g : Params → Batch → ℚ) (o : Params → Params) (loader : List Batch)
       (t : Bool) (p : Params),
       TVEvent.forwardUncond ∉ (train_validate f g o loader mainConditional t p).events) := by
  refine ⟨?_, rfl, ?_⟩
  · intro argv; simp [parseConditionalFlag, defaultArgs]
  · intro f g o loader t p
    show TVEvent.forwardUncond ∉ (tvFold f g o mainConditional t p loader).events
    rw [tvFold, foldl_processBatch_events]
    cases t <;> simp [perBatchEvents, mainConditional, List.mem_flatMap]

/-- Claim C6: for every value passed to the `--lr` command-line flag,
the optimizer is constructed with learning rate 1e-3 and betas
(0.9, 0.999); the flag's value (default 1e-4) is never used in the
construction. -/
theorem lr_flag_never_used (lrFlag : ℚ) (model : Params) :
    optimizerForArgs { defaultArgs with lr := lrFlag } model =
      { lr := 1 / 1000, beta1 := 9 / 10, beta2 := 999 / 1000 } ∧
    get_optimizer model = { lr := 1 / 1000, beta1 := 9 / 10, beta2 := 999 / 1000 } ∧
    defaultArgs.lr = 1 / 10000 :=
  ⟨rfl, rfl, rfl⟩

/-- Counterexample for claim C8 as stated: the checkpoint dictionary
built at epoch 3 stores epoch index 4, not 3 — the code writes
`'epoch': epoch + 1`. -/
theorem checkpoint_epoch_index_counterexample :
    (mkCheckpointState 3 [1, 2] (1234 / 10000)).epoch ≠ 3 := by
  decide

/-- Claim C8 as amended: every checkpoint record written at epoch e
contains the index e + 1 (the code stores `epoch + 1`), the full
serialized parameter state, and the epoch's validation loss, under a
filename determined by the loss value; a record written at epoch 3 with
loss 0.1234 and parameters P reloads with identical parameter values,
identical loss, and epoch index 4. -/
theorem checkpoint_record_roundtrip (e : ℕ) (P : Params) (v : ℚ) (store : Store) :
    (mkCheckpointState e P v).epoch = e + 1 ∧
    (mkCheckpointState e P v).stateDict = P ∧
    (mkCheckpointState e P v).valLoss = v ∧
    loadCheckpoint (save_checkpoint store (mkCheckpointState e P v) (checkpointFilename v))
      (checkpointFilename v) = some (mkCheckpointState e P v) := by
  refine ⟨rfl, rfl, rfl, ?_⟩
  simp [loadCheckpoint, save_checkpoint, List.find?]

/-- Claim C1: for every executed epoch, a checkpoint is written if and
only if the epoch's validation loss is strictly below `best_loss` or
the early-stopping signal is true; in particular with best loss 0.5 and
current loss 0.4 it checkpoints, with current loss 0.6 and no stop
signal it does not, and with current loss 0.6 and a stop signal it
does. -/
theorem checkpoint_decision_iff {σ : Type} (stepES : σ → ℚ → σ × Bool) (cfg : RunCfg)
    (fuel : ℕ) (es : σ) (best : Option ℚ) (params : Params) (epoch : ℕ)
    (out : EpochOut)
    (hmem : out ∈ (runFrom stepES cfg es best params epoch fuel).1) :
    (out.checkpointed = shouldCheckpoint out.vLoss out.bestBefore out.stop ∧
     out.record.isSome = out.checkpointed) ∧
    shouldCheckpoint (4 / 10) (some (5 / 10)) false = true ∧
    shouldCheckpoint (6 / 10) (some (5 / 10)) false = false ∧
    shouldCheckpoint (6 / 10) (some (5 / 10)) true = true := by
  have h := runFrom_out_fields stepES cfg fuel es best params epoch out hmem
  refine ⟨⟨h.1, h.2.1⟩, ?_, ?_, ?_⟩
  · simp only [shouldCheckpoint, ltBest, Bool.or_false, decide_eq_true_eq]
    norm_num
  · simp only [shouldCheckpoint, ltBest, Bool.or_false, decide_eq_false_iff_not]
    norm_num
  · simp [shouldCheckpoint]

/-- Witness for claim C1: the first epoch of the concrete run — its
checkpoint flag matches the policy. -/
theorem checkpoint_decision_iff_witness :
    mainOut0 ∈ (mainRun cfg0 p0 25).1 ∧
    ((mainOut0.checkpointed = shouldCheckpoint mainOut0.vLoss mainOut0.bestBefore mainOut0.stop ∧
      mainOut0.record.isSome = mainOut0.checkpointed) ∧
     shouldCheckpoint (4 / 10) (some (5 / 10)) false = true ∧
     shouldCheckpoint (6 / 10) (some (5 / 10)) false = false ∧
     shouldCheckpoint (6 / 10) (some (5 / 10)) true = true) := by
  have hmem : mainOut0 ∈ (mainRun cfg0 p0 25).1 := by
    rw [mainTrace_eq]; simp [mainTrace]
  exact ⟨hmem, checkpoint_decision_iff (esStep minDelta patienceLimit) cfg0 25
    esInit none p0 1 mainOut0 hmem⟩

/-- Claim C5: the stop signal is terminal — whenever the early-stopping
step returns true at some epoch of the run, that epoch is the last
entry of the trace (the loop breaks immediately, so no train or
validation pass of any later epoch executes), and the checkpoint check
is still performed for that epoch. -/
theorem stop_is_terminal {σ : Type} (stepES : σ → ℚ → σ × Bool) (cfg : RunCfg)
    (fuel : ℕ) (es : σ) (best : Option ℚ) (params : Params) (epoch i : ℕ)
    (out : EpochOut)
    (hget : (runFrom stepES cfg es best params epoch fuel).1.get? i = some out)
    (hstop : out.stop = true) :
    (runFrom stepES cfg es best params epoch fuel).1.length = i + 1 ∧
    out.checkpointed = shouldCheckpoint out.vLoss out.bestBefore true := by
  refine ⟨runFrom_stop_last stepES cfg fuel es best params epoch i out hget hstop, ?_⟩
  have h := runFrom_out_fields stepES cfg fuel es best params epoch out (List.get?_mem hget)
  rw [h.1, hstop]

/-- Witness for claim C5: the concrete run stops at its seventh epoch
(index 6) and the trace has exactly seven entries. -/
theorem stop_is_terminal_witness :
    (mainRun cfg0 p0 25).1.get? 6 = some mainOut6 ∧
    mainOut6.stop = true ∧
    ((mainRun cfg0 p0 25).1.length = 6 + 1 ∧
     mainOut6.checkpointed = shouldCheckpoint mainOut6.vLoss mainOut6.bestBefore true) := by
  have hget : (mainRun cfg0 p0 25).1.get? 6 = some mainOut6 := by
    rw [mainTrace_eq]; rfl
  exact ⟨hget, rfl, stop_is_terminal (esStep minDelta patienceLimit) cfg0 25
    esInit none p0 1 6 mainOut6 hget rfl⟩

/-- Claim C10: whenever the checkpoint branch is taken, `best_loss` is
unconditionally assigned the epoch's validation loss — also when the
branch was entered only because the stop signal is true while the loss
is no improvement — so `best_loss` is not monotonically non-increasing:
in the concrete run, epoch 2 sets `best_loss = 1/2`, and the
stop-triggered checkpoint of epoch 7 (validation loss 2, not below the
best 1/2) overwrites it with the worse value 2. -/
theorem bestLoss_overwritten_on_stop :
    (∀ (v : ℚ) (best : Option ℚ), updateBest v best true = some v) ∧
    ((mainRun cfg0 p0 25).1.get? 1).map EpochOut.bestAfter = some (some (1 / 2)) ∧
    ((mainRun cfg0 p0 25).1.get? 6).map EpochOut.stop = some true ∧
    ((mainRun cfg0 p0 25).1.get? 6).map EpochOut.vLoss = some 2 ∧
    ((mainRun cfg0 p0 25).1.get? 6).map EpochOut.bestBefore = some (some (1 / 2)) ∧
    ((mainRun cfg0 p0 25).1.get? 6).map EpochOut.bestAfter = some (some 2) ∧
    ltBest 2 (some (1 / 2)) = false ∧
    (1 / 2 : ℚ) < 2 := by
  refine ⟨?_, ?_, ?_, ?_, ?_, ?_, ?_, by norm_num⟩
  · intro v best; simp [updateBest, shouldCheckpoint]
  · rw [mainTrace_eq]; rfl
  · rw [mainTrace_eq]; rfl
  · rw [mainTrace_eq]; rfl
  · rw [mainTrace_eq]; rfl
  · rw [mainTrace_eq]; rfl
  · simp only [ltBest, decide_eq_false_iff_not]
    norm_num

end VaeDemo
